import Mathlib

/-!
Shallow embedding of the `clack` CLAP binding layer (crates `clack-common`
and `clack-extensions`), covering:

* the `Match`/`Pckn` wildcard addressing model (`src/common/src/events/pckn.rs`),
* the typed note-event raw conversions (`src/common/src/events/event_types/note/inner.rs`),
* the GUI extension host-side wrappers and trampolines (`src/extensions/src/gui/host.rs`),
* the log extension (`src/extensions/src/log.rs`).

Machine integers are embedded as `Nat`/`Int` with explicit two's-complement
casts where the Rust code performs `as` casts. IEEE-754 `f64` values appear
only as stored payloads compared with `==`; they are embedded as an
inductive capturing IEEE equality semantics (NaN compares unequal to
everything, including itself).
-/

namespace Clack

/-- Rust `u16 as i16` two's-complement cast (operand already in `0 .. 2^16`). -/
def u16_as_i16 (p : Nat) : Int :=
  if p % 65536 < 32768 then ((p % 65536 : Nat) : Int)
  else ((p % 65536 : Nat) : Int) - 65536

/-- Rust `u32 as i32` two's-complement cast (operand already in `0 .. 2^32`). -/
def u32_as_i32 (p : Nat) : Int :=
  if p % 4294967296 < 2147483648 then ((p % 4294967296 : Nat) : Int)
  else ((p % 4294967296 : Nat) : Int) - 4294967296

/-- Rust `i16 as u16` / `i32 as u32` style cast of a nonnegative value:
the code only applies it after checking `raw >= 0`, where it is the
mathematical value reduced modulo the width. -/
def int_as_u16 (raw : Int) : Nat := (raw % 65536).toNat

/-- Rust `i32 as u32` cast restricted to the nonnegative branch. -/
def int_as_u32 (raw : Int) : Nat := (raw % 4294967296).toNat

/-- `Match<T>`: matches either a specific value or all values
(`src/common/src/events/pckn.rs`). -/
inductive Match (T : Type) where
  | Specific (v : T)
  | All
deriving DecidableEq

/-- `Match::matches`: true if either side is `All`, otherwise compares the
two specific values. -/
def Match.matches {T : Type} [BEq T] (self other : Match T) : Bool :=
  match self, other with
  | .Specific x, .Specific y => x == y
  | _, _ => true

/-- `impl Match<u16> { const fn from_raw(raw: i16) }`: negative raw values
decode to `All`, nonnegative ones to `Specific(raw as u16)`. -/
def Match.from_raw16 (raw : Int) : Match Nat :=
  if raw < 0 then .All else .Specific (int_as_u16 raw)

/-- `impl Match<u32> { const fn from_raw(raw: i32) }`: negative raw values
decode to `All`, nonnegative ones to `Specific(raw as u32)`. -/
def Match.from_raw32 (raw : Int) : Match Nat :=
  if raw < 0 then .All else .Specific (int_as_u32 raw)

/-- `Pckn`: the Port, Channel, Key, NoteId tuple. `port`, `channel` and
`key` range over the `u16` domain, `note_id` over the `u32` domain. -/
structure Pckn where
  port : Match Nat
  channel : Match Nat
  key : Match Nat
  note_id : Match Nat
deriving DecidableEq

/-- `Pckn::new` (the `impl Into` conversions of the Rust signature resolve
to `Match::Specific` for plain integers and to the identity for `Match`
values; here the already-converted `Match` arguments are taken directly). -/
def Pckn.new (port channel key note_id : Match Nat) : Pckn :=
  { port := port, channel := channel, key := key, note_id := note_id }

/-- `Pckn::match_all`: all four components set to `Match::All`. -/
def Pckn.match_all : Pckn :=
  { port := .All, channel := .All, key := .All, note_id := .All }

/-- `Pckn::matches`, with the source's early-return structure. -/
def Pckn.matches (self other : Pckn) : Bool :=
  if !(self.port.matches other.port) then false
  else if !(self.channel.matches other.channel) then false
  else if !(self.key.matches other.key) then false
  else self.note_id.matches other.note_id

/-- `Pckn::raw_port`: `-1` for `All`, otherwise the value cast `as i16`. -/
def Pckn.raw_port (self : Pckn) : Int :=
  match self.port with
  | .Specific p => u16_as_i16 p
  | .All => -1

/-- `Pckn::raw_channel`: `-1` for `All`, otherwise the value cast `as i16`. -/
def Pckn.raw_channel (self : Pckn) : Int :=
  match self.channel with
  | .Specific p => u16_as_i16 p
  | .All => -1

/-- `Pckn::raw_key`: `-1` for `All`, otherwise the value cast `as i16`. -/
def Pckn.raw_key (self : Pckn) : Int :=
  match self.key with
  | .Specific p => u16_as_i16 p
  | .All => -1

/-- `Pckn::raw_note_id`: `-1` for `All`, otherwise the value cast `as i32`. -/
def Pckn.raw_note_id (self : Pckn) : Int :=
  match self.note_id with
  | .Specific p => u32_as_i32 p
  | .All => -1

/-- `Pckn::from_raw`: builds the tuple from its raw C-FFI components. -/
def Pckn.from_raw (port channel key : Int) (note_id : Int) : Pckn :=
  { port := Match.from_raw16 port
    channel := Match.from_raw16 channel
    key := Match.from_raw16 key
    note_id := Match.from_raw32 note_id }

/-- An IEEE-754 `f64` value as it behaves under Rust's `PartialEq`:
`NaN` compares unequal to everything (itself included); the two signed
zeros compare equal and are collapsed into the single rational `0`; every
finite double is a rational number. No arithmetic is performed on doubles
anywhere in the embedded code, only storage and `==`. -/
inductive F64 where
  | nan
  | finite (q : ℚ)
  | inf
  | neginf
deriving DecidableEq

/-- Rust `f64::eq` (IEEE-754 equality): `NaN` is unequal to everything. -/
def F64.ieee_eq : F64 → F64 → Bool
  | .nan, _ => false
  | _, .nan => false
  | .finite a, .finite b => decide (a = b)
  | .inf, .inf => true
  | .neginf, .neginf => true
  | _, _ => false

/-- `clap_event_header` (clap-sys): size, time, space_id, type, flags. -/
structure ClapEventHeader where
  size : Nat
  time : Nat
  space_id : Nat
  type_ : Nat
  flags : Nat
deriving DecidableEq

/-- `clap_event_note` (clap-sys): the shared raw layout of all four
note-event variants. `note_id` is `i32`; `port_index`, `channel` and `key`
are `i16`; `velocity` is `f64`. -/
structure ClapEventNote where
  header : ClapEventHeader
  note_id : Int
  port_index : Int
  channel : Int
  key : Int
  velocity : F64
deriving DecidableEq

/-- The CLAP core event type tag for note-on events. -/
def CLAP_EVENT_NOTE_ON : Nat := 0

/-- The CLAP core event type tag for note-off events. -/
def CLAP_EVENT_NOTE_OFF : Nat := 1

/-- `NoteEvent<E>` (`src/common/src/events/event_types/note/inner.rs`):
a raw `clap_event_note` tagged at the type level with the expected event
type of the phantom parameter `E` (here the expected header type tag). -/
structure NoteEvent (expectedType : Nat) where
  inner : ClapEventNote
deriving DecidableEq

/-- `NoteEvent::from_raw`: wraps the raw record unchanged. The source
carries a `TODO: panic if not matching` comment and performs no validation
of `inner.header.type_` against the expected event type. -/
def NoteEvent.from_raw (expectedType : Nat) (inner : ClapEventNote) :
    NoteEvent expectedType :=
  ⟨inner⟩

/-- `into_raw` from the `impl_note!` macro: returns the inner raw record. -/
def NoteEvent.into_raw {t : Nat} (self : NoteEvent t) : ClapEventNote :=
  self.inner

/-- `PartialEq for NoteEvent<E>`: compares key, channel, port_index,
velocity and note_id, ignoring the header (flags, time, size, space_id). -/
def NoteEvent.eq {t : Nat} (self other : NoteEvent t) : Bool :=
  self.inner.key == other.inner.key &&
    self.inner.channel == other.inner.channel &&
    self.inner.port_index == other.inner.port_index &&
    F64.ieee_eq self.inner.velocity other.inner.velocity &&
    self.inner.note_id == other.inner.note_id

/-- A raw note record whose header carries the note-off type tag. -/
def noteOffTaggedRaw : ClapEventNote :=
  { header := { size := 32, time := 0, space_id := 0,
                type_ := CLAP_EVENT_NOTE_OFF, flags := 0 }
    note_id := 7, port_index := 0, channel := 1, key := 60
    velocity := .finite 1 }

/-- A typed note-on event whose velocity is NaN. -/
def nanVelocityEvent : NoteEvent CLAP_EVENT_NOTE_ON :=
  ⟨{ header := { size := 32, time := 10, space_id := 0,
                 type_ := CLAP_EVENT_NOTE_ON, flags := 0 }
     note_id := 7, port_index := 0, channel := 1, key := 60
     velocity := .nan }⟩

/-- A typed note-on event with an ordinary finite velocity. -/
def finiteVelocityEvent : NoteEvent CLAP_EVENT_NOTE_ON :=
  ⟨{ header := { size := 32, time := 10, space_id := 0,
                 type_ := CLAP_EVENT_NOTE_ON, flags := 0 }
     note_id := 7, port_index := 0, channel := 1, key := 60
     velocity := .finite 1 }⟩

/-- `GuiSize` (clack-extensions): a width/height pair of `u32` values. -/
structure GuiSize where
  width : Nat
  height : Nat
deriving DecidableEq

/-- A GUI configuration: the windowing API identifier (a C string, embedded
as its byte list) and the floating flag, as passed to the raw calls. -/
structure GuiConfiguration where
  api_type : List Nat
  is_floating : Bool
deriving DecidableEq

/-- A raw window handle; the wrappers only pass it through opaquely. -/
structure RawWindow where
  handle : Nat
deriving DecidableEq

/-- Modelled from the spec: the `GuiError` enum of the GUI extension
(defined in `src/extensions/src/gui`, outside the provided sources). Its
variants are taken from their uses in `src/extensions/src/gui/host.rs` and
the spec's per-operation error kinds. -/
inductive GuiError where
  | CreateError
  | SetScaleError
  | SetParentError
  | ShowError
  | ResizeError
  | RequestShowError
  | RequestHideError
deriving DecidableEq

/-- The optional function pointers of `clap_plugin_gui` that the embedded
wrappers read (the plugin side of the GUI extension table). The plugin
handle type `P` stands for `*const clap_plugin`; each pointer is embedded
as a function from the plugin state and the marshalled arguments to the
raw results, with out-parameter writes returned alongside the `bool`.
Operation pointers not used by any embedded wrapper are omitted. -/
structure RawPluginGui (P : Type) where
  create : Option (P → GuiConfiguration → Bool)
  set_scale : Option (P → F64 → Bool)
  get_size : Option (P → Bool × Nat × Nat)
  can_resize : Option (P → Bool)
  set_size : Option (P → Nat → Nat → Bool)
  set_parent : Option (P → RawWindow → Bool)
  set_transient : Option (P → RawWindow → Bool)
  show_ : Option (P → Bool)
  hide : Option (P → Bool)

/-- `PluginGui::create`: an absent pointer or a `false` return both yield
`GuiError::CreateError`. -/
def PluginGui.create {P : Type} (ext : RawPluginGui P) (plugin : P)
    (configuration : GuiConfiguration) : Except GuiError Unit :=
  match ext.create with
  | none => .error .CreateError
  | some f => if f plugin configuration then .ok () else .error .CreateError

/-- `PluginGui::set_scale`: an absent pointer yields `GuiError::CreateError`
(as written in the source), a `false` return yields
`GuiError::SetScaleError`. -/
def PluginGui.set_scale {P : Type} (ext : RawPluginGui P) (plugin : P)
    (scale : F64) : Except GuiError Unit :=
  match ext.set_scale with
  | none => .error .CreateError
  | some f => if f plugin scale then .ok () else .error .SetScaleError

/-- `PluginGui::get_size`: `width` and `height` start at `0` and are
written by the raw call (the returned pair); `Some` only when the call
succeeded and both dimensions are nonzero. -/
def PluginGui.get_size {P : Type} (ext : RawPluginGui P) (plugin : P) :
    Option GuiSize :=
  match ext.get_size with
  | none => none
  | some f =>
    let r := f plugin
    if r.1 && r.2.1 != 0 && r.2.2 != 0 then
      some { width := r.2.1, height := r.2.2 }
    else none

/-- `PluginGui::can_resize`: `false` when the pointer is absent, otherwise
the raw call's result. -/
def PluginGui.can_resize {P : Type} (ext : RawPluginGui P) (plugin : P) :
    Bool :=
  match ext.can_resize with
  | some f => f plugin
  | none => false

/-- `PluginGui::set_size`: both the absent pointer and the `false` return
yield `GuiError::SetScaleError` (as written in the source). -/
def PluginGui.set_size {P : Type} (ext : RawPluginGui P) (plugin : P)
    (size : GuiSize) : Except GuiError Unit :=
  match ext.set_size with
  | none => .error .SetScaleError
  | some f =>
    if f plugin size.width size.height then .ok ()
    else .error .SetScaleError

/-- `PluginGui::set_parent`: both failure paths yield
`GuiError::SetParentError`. -/
def PluginGui.set_parent {P : Type} (ext : RawPluginGui P) (plugin : P)
    (window : RawWindow) : Except GuiError Unit :=
  match ext.set_parent with
  | none => .error .SetParentError
  | some f => if f plugin window then .ok () else .error .SetParentError

/-- `PluginGui::set_transient`: both failure paths yield
`GuiError::SetParentError` (as written in the source). -/
def PluginGui.set_transient {P : Type} (ext : RawPluginGui P) (plugin : P)
    (window : RawWindow) : Except GuiError Unit :=
  match ext.set_transient with
  | none => .error .SetParentError
  | some f => if f plugin window then .ok () else .error .SetParentError

/-- `PluginGui::show`: both failure paths yield `GuiError::ShowError`. -/
def PluginGui.show {P : Type} (ext : RawPluginGui P) (plugin : P) :
    Except GuiError Unit :=
  match ext.show_ with
  | none => .error .ShowError
  | some f => if f plugin then .ok () else .error .ShowError

/-- `PluginGui::hide`: both failure paths yield `GuiError::ShowError`
(as written in the source). -/
def PluginGui.hide {P : Type} (ext : RawPluginGui P) (plugin : P) :
    Except GuiError Unit :=
  match ext.hide with
  | none => .error .ShowError
  | some f => if f plugin then .ok () else .error .ShowError

/-- Rust `Result::is_ok`. -/
def Result.is_ok {E A : Type} : Except E A → Bool
  | .ok _ => true
  | .error _ => false

/-- Modelled from the spec: the error produced inside
`HostWrapper::<H>::handle` (clack-host, outside the provided sources) when
the safe closure fails or the wrapper cannot be recovered. -/
inductive HostError where
  | failure
deriving DecidableEq

/-- Modelled from the spec: `HostWrapper::<H>::handle` (clack-host, outside
the provided sources) recovers the safe wrapper from the raw `*const
clap_host` pointer — embedded as the already-attempted recovery result
`recovered` — runs the closure on it, and catches every failure at the
boundary, yielding `none` instead of propagating. -/
def HostWrapper.handle {W A : Type} (recovered : Option W)
    (f : W → Except HostError A) : Option A :=
  match recovered with
  | none => none
  | some host =>
    match f host with
    | .ok a => some a
    | .error _ => none

/-- The `request_resize` trampoline of the host-GUI extension table:
converts the safe `HostGuiImpl::request_resize` result into the ABI `bool`,
with `unwrap_or(false)` at the boundary. -/
def request_resize {W : Type} (recovered : Option W)
    (impl : W → GuiSize → Except GuiError Unit) (width height : Nat) :
    Bool :=
  (HostWrapper.handle recovered (fun host =>
    .ok (Result.is_ok (impl host { width := width, height := height })))).getD
    false

/-- The `request_show` trampoline of the host-GUI extension table. -/
def request_show {W : Type} (recovered : Option W)
    (impl : W → Except GuiError Unit) : Bool :=
  (HostWrapper.handle recovered (fun host =>
    .ok (Result.is_ok (impl host)))).getD false

/-- The `request_hide` trampoline of the host-GUI extension table. -/
def request_hide {W : Type} (recovered : Option W)
    (impl : W → Except GuiError Unit) : Bool :=
  (HostWrapper.handle recovered (fun host =>
    .ok (Result.is_ok (impl host)))).getD false

/-- Modelled from the spec: the `LogError` type of the log extension
(`src/extensions/src/log/error.rs`, outside the provided sources) — a
distinct error for encoding failures, converted from `CString::new`'s
`NulError` (which records the position of the first interior null byte)
and from formatting errors. -/
inductive LogError where
  | NulError (position : Nat)
  | FmtError
deriving DecidableEq

/-- `CString::new` on a message embedded as its byte list: fails with
`NulError` exactly when the bytes contain a null byte, otherwise returns
the bytes unchanged (the implicit terminator is not represented). -/
def CString.new (bytes : List Nat) : Except LogError (List Nat) :=
  if bytes.contains 0 then .error (.NulError (bytes.indexOf 0))
  else .ok bytes

/-- `LogSeverity` (`src/extensions/src/log.rs`). -/
inductive LogSeverity where
  | Debug
  | Info
  | Warning
  | Error
  | Fatal
  | HostMisbehaving
  | PluginMisbehaving
deriving DecidableEq

/-- `LogSeverity::to_raw`: the `#[repr(i32)]` discriminant. -/
def LogSeverity.to_raw : LogSeverity → Int
  | .Debug => 0
  | .Info => 1
  | .Warning => 2
  | .Error => 3
  | .Fatal => 4
  | .HostMisbehaving => 5
  | .PluginMisbehaving => 6

/-- One invocation of the raw `clap_host_log.log` function pointer: the raw
severity and the message bytes passed to it. -/
structure LogCall where
  severity : Int
  message : List Nat
deriving DecidableEq

/-- `Log::log`: invokes the raw log function pointer once with the raw
severity and the C string's bytes; embedded as the trace of raw calls. -/
def Log.log (log_severity : LogSeverity) (message : List Nat) :
    List LogCall :=
  [{ severity := log_severity.to_raw, message := message }]

/-- `Log::log_str`: converts the message with `CString::new`, propagating
its failure with `?` before any raw call, then logs it. Returns the result
paired with the trace of raw log invocations. -/
def Log.log_str (log_severity : LogSeverity) (message : List Nat) :
    Except LogError Unit × List LogCall :=
  match CString.new message with
  | .error e => (.error e, [])
  | .ok m => (.ok (), Log.log log_severity m)

/-- A GUI extension table with every operation pointer absent. -/
def emptyGuiExt : RawPluginGui Unit :=
  { create := none, set_scale := none, get_size := none, can_resize := none
    set_size := none, set_parent := none, set_transient := none
    show_ := none, hide := none }

/-- A GUI extension table whose `get_size` reports success but writes a
zero width. -/
def zeroWidthGuiExt : RawPluginGui Unit :=
  { emptyGuiExt with get_size := some (fun _ => (true, 0, 480)) }

end Clack

namespace Clack

/-- Claim C1, counterexample: `32768` is a 16-bit unsigned value, yet
encoding `Specific(32768)` through `Pckn::raw_port` (the `as i16` cast
wraps it to `-32768`) and decoding with `Match::<u16>::from_raw` does not
yield `Specific(32768)`: it yields `All`. -/
theorem C1_raw_roundtrip_cex :
    32768 < 65536 ∧
    Match.from_raw16
        (Pckn.raw_port ⟨.Specific 32768, .All, .All, .All⟩) ≠
      Match.Specific 32768 ∧
    Match.from_raw16
        (Pckn.raw_port ⟨.Specific 32768, .All, .All, .All⟩) =
      Match.All := by
  decide

/-- Claim C1 (amended): for every unsigned value `v` below `2^15`
(respectively `2^31` for the note-id domain), encoding `Specific(v)` through
the raw accessors and decoding with `from_raw` yields `Specific(v)` again;
decoding the raw value `-1` yields `All`, and decoding any negative raw
input yields `All`. For `v` at or above `2^15` (resp. `2^31`) the `as`-cast
wraps to a negative value and the round trip lands on `All` instead. -/
theorem C1_raw_roundtrip :
    (∀ v : Nat, v < 32768 →
      Match.from_raw16 (Pckn.raw_port ⟨.Specific v, .All, .All, .All⟩) =
        Match.Specific v) ∧
    (∀ v : Nat, v < 32768 →
      Match.from_raw16 (Pckn.raw_channel ⟨.All, .Specific v, .All, .All⟩) =
        Match.Specific v) ∧
    (∀ v : Nat, v < 32768 →
      Match.from_raw16 (Pckn.raw_key ⟨.All, .All, .Specific v, .All⟩) =
        Match.Specific v) ∧
    (∀ v : Nat, v < 2147483648 →
      Match.from_raw32 (Pckn.raw_note_id ⟨.All, .All, .All, .Specific v⟩) =
        Match.Specific v) ∧
    Match.from_raw16 (-1) = Match.All ∧
    Match.from_raw32 (-1) = Match.All ∧
    (∀ raw : Int, raw < 0 → Match.from_raw16 raw = Match.All) ∧
    (∀ raw : Int, raw < 0 → Match.from_raw32 raw = Match.All) ∧
    (∀ v : Nat, 32768 ≤ v → v < 65536 →
      Match.from_raw16 (Pckn.raw_port ⟨.Specific v, .All, .All, .All⟩) =
        Match.All) ∧
    (∀ v : Nat, 2147483648 ≤ v → v < 4294967296 →
      Match.from_raw32 (Pckn.raw_note_id ⟨.All, .All, .All, .Specific v⟩) =
        Match.All) := by
  have h16 : ∀ v : Nat, v < 32768 →
      Match.from_raw16 (u16_as_i16 v) = Match.Specific v := by
    intro v hv
    have hm : v % 65536 = v := Nat.mod_eq_of_lt (by omega)
    have henc : u16_as_i16 v = (v : Int) := by
      simp [u16_as_i16, hm, hv]
    rw [henc]
    have hpos : ¬((v : Int) < 0) := by omega
    simp [Match.from_raw16, hpos, int_as_u16]
    omega
  have h32 : ∀ v : Nat, v < 2147483648 →
      Match.from_raw32 (u32_as_i32 v) = Match.Specific v := by
    intro v hv
    have hm : v % 4294967296 = v := Nat.mod_eq_of_lt (by omega)
    have henc : u32_as_i32 v = (v : Int) := by
      simp [u32_as_i32, hm, hv]
    rw [henc]
    have hpos : ¬((v : Int) < 0) := by omega
    simp [Match.from_raw32, hpos, int_as_u32]
    omega
  have hw16 : ∀ v : Nat, 32768 ≤ v → v < 65536 →
      Match.from_raw16 (u16_as_i16 v) = Match.All := by
    intro v h1 h2
    have hm : v % 65536 = v := Nat.mod_eq_of_lt h2
    have henc : u16_as_i16 v = (v : Int) - 65536 := by
      unfold u16_as_i16
      rw [hm, if_neg (by omega)]
    rw [henc]
    have hneg : ((v : Int) - 65536) < 0 := by omega
    simp [Match.from_raw16, hneg]
  have hw32 : ∀ v : Nat, 2147483648 ≤ v → v < 4294967296 →
      Match.from_raw32 (u32_as_i32 v) = Match.All := by
    intro v h1 h2
    have hm : v % 4294967296 = v := Nat.mod_eq_of_lt h2
    have henc : u32_as_i32 v = (v : Int) - 4294967296 := by
      unfold u32_as_i32
      rw [hm, if_neg (by omega)]
    rw [henc]
    have hneg : ((v : Int) - 4294967296) < 0 := by omega
    simp [Match.from_raw32, hneg]
  refine ⟨fun v hv => ?_, fun v hv => ?_, fun v hv => ?_, fun v hv => ?_,
    by decide, by decide, fun raw hr => ?_, fun raw hr => ?_,
    fun v h1 h2 => ?_, fun v h1 h2 => ?_⟩
  · simpa [Pckn.raw_port] using h16 v hv
  · simpa [Pckn.raw_channel] using h16 v hv
  · simpa [Pckn.raw_key] using h16 v hv
  · simpa [Pckn.raw_note_id] using h32 v hv
  · simp [Match.from_raw16, hr]
  · simp [Match.from_raw32, hr]
  · simpa [Pckn.raw_port] using hw16 v h1 h2
  · simpa [Pckn.raw_note_id] using hw32 v h1 h2

/-- Witness for C1 at concrete inputs, one per hypothesis-bearing clause:
an in-range round trip in each domain, a negative decode in each width,
and a wrapping value in each width. -/
theorem C1_raw_roundtrip_w :
    Match.from_raw16 (Pckn.raw_port ⟨.Specific 1000, .All, .All, .All⟩) =
      Match.Specific 1000 ∧
    Match.from_raw32 (Pckn.raw_note_id ⟨.All, .All, .All, .Specific 70000⟩) =
      Match.Specific 70000 ∧
    Match.from_raw16 (-5) = Match.All ∧
    Match.from_raw32 (-7) = Match.All ∧
    Match.from_raw16 (Pckn.raw_port ⟨.Specific 40000, .All, .All, .All⟩) =
      Match.All ∧
    Match.from_raw32
        (Pckn.raw_note_id ⟨.All, .All, .All, .Specific 3000000000⟩) =
      Match.All :=
  ⟨C1_raw_roundtrip.1 1000 (by decide),
   C1_raw_roundtrip.2.2.2.1 70000 (by decide),
   C1_raw_roundtrip.2.2.2.2.2.2.1 (-5) (by decide),
   C1_raw_roundtrip.2.2.2.2.2.2.2.1 (-7) (by decide),
   C1_raw_roundtrip.2.2.2.2.2.2.2.2.1 40000 (by decide) (by decide),
   C1_raw_roundtrip.2.2.2.2.2.2.2.2.2 3000000000 (by decide) (by decide)⟩

/-- Claim C3: `Match::matches` returns true whenever either side is `All`
(in particular `All.matches(x) == true` for every `x`), and on two
`Specific` values it equals the underlying equality. -/
theorem C3_match_matches (b a : Match Nat) (x y : Nat) :
    (Match.All).matches b = true ∧
    a.matches Match.All = true ∧
    (Match.Specific x).matches (Match.Specific y) = (x == y) := by
  refine ⟨?_, ?_, rfl⟩
  · cases b <;> rfl
  · cases a <;> rfl

/-- Witness for C3 at concrete inputs. -/
theorem C3_match_matches_w :
    (Match.All).matches (Match.Specific 5) = true ∧
    (Match.Specific 9).matches Match.All = true ∧
    (Match.Specific 4).matches (Match.Specific 4) = (4 == 4) :=
  C3_match_matches (Match.Specific 5) (Match.Specific 9) 4 4

/-- Claim C4: `Pckn::matches` equals the conjunction of the four per-field
`Match::matches` results (the early-return order has no semantic effect);
`Pckn::match_all()` matches everything, and the two concrete examples from
the spec evaluate as stated. -/
theorem C4_pckn_matches (p q : Pckn) :
    (p.matches q =
      (p.port.matches q.port && p.channel.matches q.channel &&
        p.key.matches q.key && p.note_id.matches q.note_id)) ∧
    Pckn.match_all.matches q = true ∧
    (Pckn.new (.Specific 0) (.Specific 0) (.Specific 60) (.Specific 5)).matches
      (Pckn.new (.Specific 0) (.Specific 0) (.Specific 60) .All) = true ∧
    (Pckn.new (.Specific 0) (.Specific 0) (.Specific 60) (.Specific 5)).matches
      (Pckn.new (.Specific 0) (.Specific 1) (.Specific 60) .All) = false := by
  refine ⟨?_, ?_, by decide, by decide⟩
  · cases hp : p.port.matches q.port <;>
      cases hc : p.channel.matches q.channel <;>
        cases hk : p.key.matches q.key <;>
          simp [Pckn.matches, hp, hc, hk]
  · cases hport : q.port <;> cases hch : q.channel <;> cases hkey : q.key <;>
      cases hn : q.note_id <;>
        simp [Pckn.matches, Pckn.match_all, Match.matches]

end Clack

namespace Clack

/-- Claim C2: evidence of the code bug. `NoteEvent::from_raw` accepts a raw
`clap_event_note` whose header type tag is the note-off tag while the
target type expects the note-on tag: the record is wrapped unchanged and
no error of any kind is produced, although the source's own TODO and the
spec require a TypeMismatch-class failure at this boundary. -/
theorem C2_from_raw_no_tag_validation :
    (NoteEvent.from_raw CLAP_EVENT_NOTE_ON noteOffTaggedRaw).inner =
      noteOffTaggedRaw ∧
    noteOffTaggedRaw.header.type_ ≠ CLAP_EVENT_NOTE_ON :=
  ⟨rfl, by decide⟩

/-- Claim C5, counterexample: a note event whose velocity is NaN is not
equal to itself after the `from_raw` / `into_raw` round trip, because the
event equality compares velocities with IEEE semantics where NaN is
unequal to everything. -/
theorem C5_event_roundtrip_cex :
    NoteEvent.eq
        (NoteEvent.from_raw CLAP_EVENT_NOTE_ON
          (NoteEvent.into_raw nanVelocityEvent))
        nanVelocityEvent = false := by
  decide

/-- Claim C5 (amended): `from_raw` after `into_raw` reproduces the raw
record exactly; the result is equal to the original under the event's
equality whenever the velocity is not NaN (for NaN velocities IEEE
equality makes the event unequal even to itself); and that equality
ignores the header entirely (flags and time included). -/
theorem C5_event_roundtrip (t : Nat) (e : NoteEvent t) :
    NoteEvent.from_raw t (NoteEvent.into_raw e) = e ∧
    (e.inner.velocity ≠ F64.nan →
      NoteEvent.eq (NoteEvent.from_raw t (NoteEvent.into_raw e)) e = true) ∧
    (∀ h : ClapEventHeader,
      NoteEvent.eq (t := t) ⟨{ e.inner with header := h }⟩ e =
        NoteEvent.eq e e) := by
  refine ⟨rfl, fun hv => ?_, fun h => rfl⟩
  have hvel : F64.ieee_eq e.inner.velocity e.inner.velocity = true := by
    cases hcase : e.inner.velocity <;> simp_all [F64.ieee_eq]
  simp [NoteEvent.eq, NoteEvent.from_raw, NoteEvent.into_raw, hvel]

/-- Witness for C5 at a concrete event with a finite velocity. -/
theorem C5_event_roundtrip_w :
    NoteEvent.eq
        (NoteEvent.from_raw CLAP_EVENT_NOTE_ON
          (NoteEvent.into_raw finiteVelocityEvent))
        finiteVelocityEvent = true :=
  (C5_event_roundtrip CLAP_EVENT_NOTE_ON finiteVelocityEvent).2.1 (by decide)

end Clack

namespace Clack

/-- Claim C6: when the specific operation pointer of the supported GUI
extension is unset, the safe wrapper returns the documented neutral
default for every plugin handle: `can_resize` returns `false` and
`get_size` returns `None`. -/
theorem C6_absent_pointer_defaults (P : Type) (ext : RawPluginGui P)
    (plugin : P) :
    (ext.can_resize = none → PluginGui.can_resize ext plugin = false) ∧
    (ext.get_size = none → PluginGui.get_size ext plugin = none) := by
  constructor
  · intro h
    simp [PluginGui.can_resize, h]
  · intro h
    simp [PluginGui.get_size, h]

/-- Witness for C6 on the table with every pointer absent. -/
theorem C6_absent_pointer_defaults_w :
    PluginGui.can_resize emptyGuiExt () = false ∧
    PluginGui.get_size emptyGuiExt () = none :=
  ⟨(C6_absent_pointer_defaults Unit emptyGuiExt ()).1 rfl,
   (C6_absent_pointer_defaults Unit emptyGuiExt ()).2 rfl⟩

/-- Claim C7, counterexample: `PluginGui::set_scale` with an absent
function pointer fails with `GuiError::CreateError` — the error kind of
`create`, not a `SetScaleError`-kind error — so not every failure path of
`set_scale` yields a per-operation error kind. -/
theorem C7_error_kinds_cex :
    PluginGui.set_scale emptyGuiExt () (F64.finite 1) =
      Except.error GuiError.CreateError ∧
    GuiError.CreateError ≠ GuiError.SetScaleError :=
  ⟨rfl, by decide⟩

/-- Claim C7 (amended): the error kinds actually produced are per-failure-
path but not uniquely per-operation: `set_scale` yields `SetScaleError`
only when the raw call returns `false` and yields `CreateError` when the
pointer is absent; `create` always fails with `CreateError`; `set_size`
always fails with `SetScaleError` (shared with `set_scale`); `set_parent`
and `set_transient` fail with `SetParentError`; `show` and `hide` both
fail with `ShowError`. -/
theorem C7_error_kinds (P : Type) (ext : RawPluginGui P) (plugin : P)
    (scale : F64) (size : GuiSize) (cfg : GuiConfiguration)
    (window : RawWindow) :
    (ext.set_scale = none →
      PluginGui.set_scale ext plugin scale =
        Except.error GuiError.CreateError) ∧
    (∀ f, ext.set_scale = some f → f plugin scale = false →
      PluginGui.set_scale ext plugin scale =
        Except.error GuiError.SetScaleError) ∧
    (∀ e, PluginGui.create ext plugin cfg = Except.error e →
      e = GuiError.CreateError) ∧
    (∀ e, PluginGui.set_size ext plugin size = Except.error e →
      e = GuiError.SetScaleError) ∧
    (∀ e, PluginGui.set_parent ext plugin window = Except.error e →
      e = GuiError.SetParentError) ∧
    (∀ e, PluginGui.set_transient ext plugin window = Except.error e →
      e = GuiError.SetParentError) ∧
    (∀ e, PluginGui.show ext plugin = Except.error e →
      e = GuiError.ShowError) ∧
    (∀ e, PluginGui.hide ext plugin = Except.error e →
      e = GuiError.ShowError) := by
  refine ⟨fun h => by simp [PluginGui.set_scale, h],
    fun f hf hres => by simp [PluginGui.set_scale, hf, hres],
    fun e h => ?_, fun e h => ?_, fun e h => ?_, fun e h => ?_,
    fun e h => ?_, fun e h => ?_⟩
  · cases hc : ext.create with
    | none =>
      simp [PluginGui.create, hc] at h
      exact h.symm
    | some f =>
      cases hres : f plugin cfg <;> simp [PluginGui.create, hc, hres] at h
      exact h.symm
  · cases hc : ext.set_size with
    | none =>
      simp [PluginGui.set_size, hc] at h
      exact h.symm
    | some f =>
      cases hres : f plugin size.width size.height <;>
        simp [PluginGui.set_size, hc, hres] at h
      exact h.symm
  · cases hc : ext.set_parent with
    | none =>
      simp [PluginGui.set_parent, hc] at h
      exact h.symm
    | some f =>
      cases hres : f plugin window <;>
        simp [PluginGui.set_parent, hc, hres] at h
      exact h.symm
  · cases hc : ext.set_transient with
    | none =>
      simp [PluginGui.set_transient, hc] at h
      exact h.symm
    | some f =>
      cases hres : f plugin window <;>
        simp [PluginGui.set_transient, hc, hres] at h
      exact h.symm
  · cases hc : ext.show_ with
    | none =>
      simp [PluginGui.show, hc] at h
      exact h.symm
    | some f =>
      cases hres : f plugin <;> simp [PluginGui.show, hc, hres] at h
      exact h.symm
  · cases hc : ext.hide with
    | none =>
      simp [PluginGui.hide, hc] at h
      exact h.symm
    | some f =>
      cases hres : f plugin <;> simp [PluginGui.hide, hc, hres] at h
      exact h.symm

/-- Witness for C7 on the table with every pointer absent. -/
theorem C7_error_kinds_w :
    PluginGui.set_scale emptyGuiExt () (F64.finite 1) =
      Except.error GuiError.CreateError ∧
    GuiError.SetScaleError = GuiError.SetScaleError :=
  ⟨(C7_error_kinds Unit emptyGuiExt () (F64.finite 1) ⟨640, 480⟩
      ⟨[], false⟩ ⟨0⟩).1 rfl,
   (C7_error_kinds Unit emptyGuiExt () (F64.finite 1) ⟨640, 480⟩
      ⟨[], false⟩ ⟨0⟩).2.2.2.1 GuiError.SetScaleError rfl⟩

/-- Claim C8: each boolean host-GUI trampoline returns `true` exactly when
the safe implementation returned `Ok`; an `Err` result or a failed
recovery of the wrapper from the raw context pointer becomes the ABI
failure sentinel `false` at the boundary. -/
theorem C8_trampoline_bool (W : Type) (recovered : Option W)
    (implResize : W → GuiSize → Except GuiError Unit)
    (implShow implHide : W → Except GuiError Unit) (width height : Nat) :
    (∀ host, recovered = some host →
      (request_resize recovered implResize width height = true ↔
        implResize host { width := width, height := height } =
          Except.ok ())) ∧
    (recovered = none →
      request_resize recovered implResize width height = false) ∧
    (∀ host, recovered = some host →
      (request_show recovered implShow = true ↔
        implShow host = Except.ok ())) ∧
    (recovered = none → request_show recovered implShow = false) ∧
    (∀ host, recovered = some host →
      (request_hide recovered implHide = true ↔
        implHide host = Except.ok ())) ∧
    (recovered = none → request_hide recovered implHide = false) := by
  refine ⟨fun host h => ?_, fun h => ?_, fun host h => ?_, fun h => ?_,
    fun host h => ?_, fun h => ?_⟩
  · cases hres : implResize host { width := width, height := height } <;>
      simp [request_resize, HostWrapper.handle, Result.is_ok, h, hres]
  · simp [request_resize, HostWrapper.handle, h]
  · cases hres : implShow host <;>
      simp [request_show, HostWrapper.handle, Result.is_ok, h, hres]
  · simp [request_show, HostWrapper.handle, h]
  · cases hres : implHide host <;>
      simp [request_hide, HostWrapper.handle, Result.is_ok, h, hres]
  · simp [request_hide, HostWrapper.handle, h]

/-- Witness for C8 at concrete implementations. -/
theorem C8_trampoline_bool_w :
    request_resize (some ()) (fun _ _ => Except.ok ()) 640 480 = true ∧
    request_show (W := Unit) none (fun _ => Except.ok ()) = false :=
  ⟨((C8_trampoline_bool Unit (some ()) (fun _ _ => Except.ok ())
      (fun _ => Except.ok ()) (fun _ => Except.ok ()) 640 480).1 ()
      rfl).mpr rfl,
   (C8_trampoline_bool Unit none (fun _ _ => Except.ok ())
      (fun _ => Except.ok ()) (fun _ => Except.ok ()) 640 480).2.2.2.1 rfl⟩

/-- Claim C9: `Log::log_str` fails with the encoding error exactly when the
message contains a null byte, and then the raw log function is never
invoked; for every null-free message it invokes the raw log function once
with the full message and returns `Ok`. -/
theorem C9_log_str (log_severity : LogSeverity) (message : List Nat) :
    (message.contains 0 = true →
      Log.log_str log_severity message =
        (Except.error (LogError.NulError (message.indexOf 0)), [])) ∧
    (message.contains 0 = false →
      Log.log_str log_severity message =
        (Except.ok (),
          [{ severity := log_severity.to_raw, message := message }])) := by
  constructor
  · intro h
    have hm : 0 ∈ message := by simpa using h
    simp [Log.log_str, CString.new, hm]
  · intro h
    have hm : 0 ∉ message := by simpa using h
    simp [Log.log_str, CString.new, hm, Log.log]

/-- Witness for C9 on a message with an embedded null byte and on a
null-free message. -/
theorem C9_log_str_w :
    Log.log_str LogSeverity.Info [104, 0, 105] =
      (Except.error (LogError.NulError 1), []) ∧
    Log.log_str LogSeverity.Info [104, 105] =
      (Except.ok (),
        [{ severity := LogSeverity.Info.to_raw, message := [104, 105] }]) :=
  ⟨(C9_log_str LogSeverity.Info [104, 0, 105]).1 (by decide),
   (C9_log_str LogSeverity.Info [104, 105]).2 (by decide)⟩

/-- Claim C10: `PluginGui::get_size` returns `None` when the pointer is
unset and also when the raw call succeeds but reports a zero width or
height; it returns `Some` only when the call succeeded with two nonzero
dimensions, and then with exactly those dimensions. -/
theorem C10_get_size_zero (P : Type) (ext : RawPluginGui P) (plugin : P)
    (s : GuiSize) :
    (ext.get_size = none → PluginGui.get_size ext plugin = none) ∧
    (∀ f, ext.get_size = some f → (f plugin).1 = true →
      (f plugin).2.1 = 0 ∨ (f plugin).2.2 = 0 →
      PluginGui.get_size ext plugin = none) ∧
    (PluginGui.get_size ext plugin = some s →
      ∃ f, ext.get_size = some f ∧ (f plugin).1 = true ∧
        (f plugin).2.1 ≠ 0 ∧ (f plugin).2.2 ≠ 0 ∧
        s = { width := (f plugin).2.1, height := (f plugin).2.2 }) := by
  refine ⟨fun h => by simp [PluginGui.get_size, h], fun f hf hok hzero => ?_,
    fun h => ?_⟩
  · rcases hzero with hz | hz <;> simp [PluginGui.get_size, hf, hok, hz]
  · cases hc : ext.get_size with
    | none => simp [PluginGui.get_size, hc] at h
    | some f =>
      refine ⟨f, rfl, ?_⟩
      simp only [PluginGui.get_size, hc] at h
      by_cases hok : (f plugin).1 = true
      · by_cases hw : (f plugin).2.1 = 0
        · simp [hok, hw] at h
        · by_cases hh : (f plugin).2.2 = 0
          · simp [hok, hw, hh] at h
          · simp [hok, hw, hh] at h
            exact ⟨hok, hw, hh, h.symm⟩
      · simp [Bool.not_eq_true] at hok
        simp [hok] at h

/-- Witness for C10 on a table whose raw `get_size` succeeds with a zero
width. -/
theorem C10_get_size_zero_w :
    PluginGui.get_size zeroWidthGuiExt () = none :=
  (C10_get_size_zero Unit zeroWidthGuiExt () ⟨1, 1⟩).2.1
    (fun _ => (true, 0, 480)) rfl rfl (Or.inl rfl)

end Clack
